import Mathlib

/-!
Shallow embedding of the BioTutor school-management backend (users, schools,
content apps) and proofs about its user-creation, permission, soft-delete and
bulk-creation behaviour.  Relational rows are Lean structures, tables are
lists, and each Django view or serializer method is a Lean function over an
explicit database state.  Auto-populated timestamp columns are modelled by an
explicit clock argument `now`.
-/

namespace BioTutor

/-- HTTP response returned by a view: status code and message body. -/
structure Response where
  status : Nat
  body : String
deriving Repr, DecidableEq

/-- Row of the `users` table (users.models.User).  The `password` field stands
for the credential stored by `set_password`. -/
structure User where
  id : Nat
  email : String
  first_name : String
  last_name : String
  role : String
  school : Option Nat
  is_active : Bool
  is_staff : Bool
  date_joined : Nat
  last_login : Option Nat
  password : String
deriving Repr, DecidableEq

/-- Row of `teacher_profiles` (users.models.TeacherProfile). -/
structure TeacherProfile where
  user_id : Nat
  subject_specialization : String
  years_of_experience : Option Nat
  bio : String
  phone_number : String
deriving Repr, DecidableEq

/-- Row of `student_profiles` (users.models.StudentProfile). -/
structure StudentProfile where
  user_id : Nat
  class_level : String
  student_id : String
  phone_number : String
  parent_email : String
  parent_phone : String
  weak_topics : List Nat
deriving Repr, DecidableEq

/-- Row of `schools` (schools.models.School). -/
structure School where
  id : Nat
  name : String
  slug : String
  email : String
  phone_number : String
  address : String
  district : String
  region : String
  registration_number : String
  is_active : Bool
  subscription_type : String
  created_at : Nat
  updated_at : Nat
deriving Repr, DecidableEq

/-- Row of `topics` (content.models.Topic); `curriculum_class` is the foreign
key to content.models.CurriculumClass. -/
structure Topic where
  id : Nat
  curriculum_class : Nat
  title : String
  description : String
  order : Nat
deriving Repr, DecidableEq

/-- Database state: the tables the verified operations touch, plus the
auto-increment counter for user primary keys. -/
structure DB where
  next_user_id : Nat
  users : List User
  teacher_profiles : List TeacherProfile
  student_profiles : List StudentProfile
  schools : List School
  topics : List Topic
deriving Repr, DecidableEq

/-- Success test for `Except` results. -/
def isOk {ε α : Type} : Except ε α → Bool
  | .ok _ => true
  | .error _ => false

/-- Python format `f"{n:06d}"`: decimal digits of `n`, left-padded with zeros
to at least six characters. -/
def pad6 (n : Nat) : String :=
  let s := toString n
  if s.length < 6 then String.mk (List.replicate (6 - s.length) '0') ++ s else s

/-- Characters matched by the ASCII whitespace class of Python regular
expressions. -/
def isPySpace (c : Char) : Bool :=
  c == ' ' || c == '\t' || c == '\n' || c == '\r' || c == '\x0b' || c == '\x0c'

/-- Characters matched by the ASCII word class of Python regular
expressions. -/
def isWordChar (c : Char) : Bool :=
  c.isAlphanum || c == '_'

/-- Replace every maximal run of whitespace or hyphens by a single hyphen. -/
def collapseRuns (l : List Char) : List Char :=
  l.foldr
    (fun c acc =>
      if isPySpace c || c == '-' then
        match acc with
        | '-' :: _ => acc
        | _ => '-' :: acc
      else c :: acc)
    []

/-- Strip leading and trailing hyphens and underscores. -/
def stripEnds (l : List Char) : List Char :=
  ((l.dropWhile fun c => c == '-' || c == '_').reverse.dropWhile
      fun c => c == '-' || c == '_').reverse

/-- Django django.utils.text.slugify in its default ASCII mode, restricted to
ASCII input: lowercase, drop characters that are not word characters,
whitespace or hyphens, collapse whitespace-or-hyphen runs to single hyphens,
and strip leading and trailing hyphens and underscores. -/
def slugify (s : String) : String :=
  let lowered := s.data.map Char.toLower
  let kept := lowered.filter fun c => isWordChar c || isPySpace c || c == '-'
  String.mk (stripEnds (collapseRuns kept))

/-- School.save: derive the slug from the name when the slug is empty, then
persist; the `updated_at` column is auto_now and is set to the present save
time. -/
def School.save (now : Nat) (s : School) : School :=
  let s1 := if s.slug = "" then { s with slug := slugify s.name } else s
  { s1 with updated_at := now }

/-- Data submitted to UserRegistrationSerializer (the serializer's writable
fields).  A school foreign key is a nullable school id. -/
structure RegistrationAttrs where
  email : String
  first_name : String
  last_name : String
  role : String
  school : Option Nat
  password : String
  password_confirm : String
deriving Repr, DecidableEq

/-- UserRegistrationSerializer.validate: password confirmation, then the
role-school rules.  In Python, `attrs.get('school')` is truthy exactly when
the nullable foreign key is present. -/
def UserRegistrationSerializer.validate (a : RegistrationAttrs) :
    Except String RegistrationAttrs :=
  if a.password ≠ a.password_confirm then
    .error "password: Password fields did not match."
  else if a.role = "SUPER_ADMIN" ∧ a.school ≠ none then
    .error "school: Super Admin cannot be assigned to a school."
  else if a.role ≠ "SUPER_ADMIN" ∧ a.school = none then
    .error "school: This role requires a school assignment."
  else
    .ok a

/-- Object passed to an object-level permission check: whether it has a
`school` attribute, whether it has a `role` attribute (i.e. is a User row),
and the value of its school foreign key. -/
structure PermObject where
  has_school_attr : Bool
  has_role_attr : Bool
  school : Option Nat
deriving Repr, DecidableEq

/-- IsSameSchool.has_object_permission (users.permissions): Super Admin passes
unconditionally; a School Admin passes when the object's school equals their
own; everyone else is refused. -/
def IsSameSchool.has_object_permission (requester : User) (obj : PermObject) : Bool :=
  if requester.role = "SUPER_ADMIN" then
    true
  else if requester.role = "SCHOOL_ADMIN" then
    if obj.has_school_attr then
      obj.school == requester.school
    else if obj.has_role_attr then
      obj.school == requester.school
    else
      false
  else
    false

/-- Email uniqueness test against the `users` table (the unique constraint on
User.email, also used by BulkStudentCreateSerializer.validate_students). -/
def emailExists (db : DB) (e : String) : Bool :=
  db.users.any fun u => u.email == e

/-- Student-id uniqueness test against `student_profiles` (unique constraint
on StudentProfile.student_id). -/
def studentIdExists (db : DB) (sid : String) : Bool :=
  db.student_profiles.any fun p => p.student_id == sid

/-- Insert a user row; the database rejects a duplicate email (unique
constraint) with an integrity error. -/
def insertUser (db : DB) (u : User) : Except String DB :=
  if emailExists db u.email then
    .error "IntegrityError: duplicate email"
  else
    .ok { db with users := db.users ++ [u], next_user_id := db.next_user_id + 1 }

/-- Insert a student profile row; the database rejects a duplicate student_id
(unique constraint) with an integrity error. -/
def insertStudentProfile (db : DB) (p : StudentProfile) : Except String DB :=
  if studentIdExists db p.student_id then
    .error "IntegrityError: duplicate student_id"
  else
    .ok { db with student_profiles := db.student_profiles ++ [p] }

/-- User row built by User.objects.create from the validated registration
data (with set_password applied): fresh id, active, not staff, joined now. -/
def newUserRecord (now : Nat) (db : DB) (d : RegistrationAttrs) : User :=
  { id := db.next_user_id, email := d.email, first_name := d.first_name,
    last_name := d.last_name, role := d.role, school := d.school,
    is_active := true, is_staff := false, date_joined := now,
    last_login := none, password := d.password }

/-- UserRegistrationSerializer.create: pop the password fields, create the
user row, set the password, then create the role-dependent profile row
(TeacherProfile with its column defaults for TEACHER; StudentProfile with
class_level S1 and an auto-generated student id for STUDENT; nothing
otherwise).  Returns the new database state and the created user. -/
def UserRegistrationSerializer.create (now : Nat) (db : DB) (d : RegistrationAttrs) :
    Except String (DB × User) :=
  let u : User := newUserRecord now db d
  match insertUser db u with
  | .error e => .error e
  | .ok db1 =>
    if u.role = "TEACHER" then
      .ok ({ db1 with teacher_profiles := db1.teacher_profiles ++
              [{ user_id := u.id, subject_specialization := "Biology",
                 years_of_experience := none, bio := "", phone_number := "" }] }, u)
    else if u.role = "STUDENT" then
      match insertStudentProfile db1
          { user_id := u.id, class_level := "S1",
            student_id := "STD" ++ pad6 u.id, phone_number := "",
            parent_email := "", parent_phone := "", weak_topics := [] } with
      | .error e => .error e
      | .ok db2 => .ok (db2, u)
    else
      .ok (db1, u)

/-- DRF serializer.save(**overrides) as invoked from perform_create: the
submitted data is validated first, and only afterwards do the keyword
overrides replace the validated role and school. -/
def UserRegistrationSerializer.save (now : Nat) (db : DB)
    (submitted : RegistrationAttrs) (roleOverride : Option String)
    (schoolOverride : Option (Option Nat)) : Except String (DB × User) :=
  match UserRegistrationSerializer.validate submitted with
  | .error e => .error e
  | .ok attrs =>
    let a1 := match roleOverride with
      | some r => { attrs with role := r }
      | none => attrs
    let a2 := match schoolOverride with
      | some sc => { a1 with school := sc }
      | none => a1
    UserRegistrationSerializer.create now db a2

/-- SchoolAdminCreateView.perform_create: serializer.save overriding the role
to SCHOOL_ADMIN, with no school override. -/
def SchoolAdminCreateView.perform_create (now : Nat) (db : DB)
    (submitted : RegistrationAttrs) : Except String (DB × User) :=
  UserRegistrationSerializer.save now db submitted (some "SCHOOL_ADMIN") none

/-- TeacherCreateView.perform_create: serializer.save overriding the role to
TEACHER and the school to the requesting school admin's school. -/
def TeacherCreateView.perform_create (now : Nat) (requester : User) (db : DB)
    (submitted : RegistrationAttrs) : Except String (DB × User) :=
  UserRegistrationSerializer.save now db submitted (some "TEACHER")
    (some requester.school)

/-- StudentCreateView.perform_create: serializer.save overriding the role to
STUDENT and the school to the requesting school admin's school. -/
def StudentCreateView.perform_create (now : Nat) (requester : User) (db : DB)
    (submitted : RegistrationAttrs) : Except String (DB × User) :=
  UserRegistrationSerializer.save now db submitted (some "STUDENT")
    (some requester.school)

/-- One entry of the bulk-student-creation list: a dictionary whose keys may
each be absent. -/
structure BulkEntry where
  email : Option String
  first_name : Option String
  last_name : Option String
  class_level : Option String
  password : Option String
  student_id : Option String
  phone_number : Option String
  parent_email : Option String
  parent_phone : Option String
deriving Repr, DecidableEq

/-- Missing-required-field check of
BulkStudentCreateSerializer.validate_students, in source order. -/
def requiredFieldError (idx : Nat) (s : BulkEntry) : Option String :=
  if s.email = none then
    some ("Student " ++ toString (idx + 1) ++ ": Missing required field email")
  else if s.first_name = none then
    some ("Student " ++ toString (idx + 1) ++ ": Missing required field first_name")
  else if s.last_name = none then
    some ("Student " ++ toString (idx + 1) ++ ": Missing required field last_name")
  else if s.class_level = none then
    some ("Student " ++ toString (idx + 1) ++ ": Missing required field class_level")
  else
    none

/-- Existing-email check of validate_students: `if email and
User.objects.filter(email=email).exists()` — the present, non-empty email must
not already be in the users table. -/
def emailDupError (db : DB) (idx : Nat) (s : BulkEntry) : Option String :=
  match s.email with
  | some e =>
    if e ≠ "" ∧ emailExists db e = true then
      some ("Student " ++ toString (idx + 1) ++ ": Email " ++ e ++ " already exists")
    else
      none
  | none => none

/-- Class levels accepted by validate_students. -/
def valid_levels : List String := ["S1", "S2", "S3", "S4", "S5", "S6"]

/-- Validation of a single bulk entry at position `idx`: required fields, then
existing email, then class level. -/
def validateStudent (db : DB) (idx : Nat) (s : BulkEntry) : Option String :=
  match requiredFieldError idx s with
  | some e => some e
  | none =>
    match emailDupError db idx s with
    | some e => some e
    | none =>
      if valid_levels.contains (s.class_level.getD "") then none
      else some ("Student " ++ toString (idx + 1) ++ ": Invalid class level")

/-- Loop of validate_students from position `idx`, stopping at the first
error. -/
def validateStudentsFrom (db : DB) : Nat → List BulkEntry → Option String
  | _, [] => none
  | idx, s :: rest =>
    match validateStudent db idx s with
    | some e => some e
    | none => validateStudentsFrom db (idx + 1) rest

/-- BulkStudentCreateSerializer.validate_students: first validation error over
the whole submitted list, if any. -/
def validate_students (db : DB) (entries : List BulkEntry) : Option String :=
  validateStudentsFrom db 0 entries

/-- Body of the creation loop of BulkStudentCreateView.post for one entry:
UserManager.create_user (which raises when the email is empty and hits the
unique-email constraint otherwise), then StudentProfile.objects.create with
the defaulted optional fields. -/
def BulkStudentCreateView.createOne (school : Option Nat) (now : Nat) (db : DB)
    (s : BulkEntry) : Except String (DB × User × StudentProfile) :=
  if s.email.getD "" = "" then
    .error "Users must have an email address"
  else
    let u : User :=
      { id := db.next_user_id, email := s.email.getD "",
        first_name := s.first_name.getD "", last_name := s.last_name.getD "",
        role := "STUDENT", school := school, is_active := true,
        is_staff := false, date_joined := now, last_login := none,
        password := s.password.getD "BioTutor2025!" }
    match insertUser db u with
    | .error e => .error e
    | .ok db1 =>
      let p : StudentProfile :=
        { user_id := u.id, class_level := s.class_level.getD "",
          student_id := s.student_id.getD ("STD" ++ pad6 u.id),
          phone_number := s.phone_number.getD "",
          parent_email := s.parent_email.getD "",
          parent_phone := s.parent_phone.getD "", weak_topics := [] }
      match insertStudentProfile db1 p with
      | .error e => .error e
      | .ok db2 => .ok (db2, u, p)

/-- Creation loop of BulkStudentCreateView.post: process entries in order; a
raised integrity error aborts the loop but keeps the rows already created
(there is no transaction around the loop).  Returns the final database state,
the error if one was raised, and the number of students created before it. -/
def bulkLoop (school : Option Nat) (now : Nat) (db : DB) :
    List BulkEntry → DB × Option String × Nat
  | [] => (db, none, 0)
  | s :: rest =>
    match BulkStudentCreateView.createOne school now db s with
    | .error e => (db, some e, 0)
    | .ok (db1, _, _) =>
      match bulkLoop school now db1 rest with
      | (db2, err, n) => (db2, err, n + 1)

/-- BulkStudentCreateView.post: serializer validation (an empty list is
invalid, then validate_students), and on success the creation loop; a
validation failure returns 400 with the database untouched, an exception in
the loop surfaces as a server error with the partial state kept, and success
returns 201. -/
def BulkStudentCreateView.post (school : Option Nat) (now : Nat) (db : DB)
    (entries : List BulkEntry) : DB × Response :=
  if entries = [] then
    (db, { status := 400, body := "students: This list may not be empty." })
  else
    match validate_students db entries with
    | some err => (db, { status := 400, body := err })
    | none =>
      match bulkLoop school now db entries with
      | (db1, some e, _) => (db1, { status := 500, body := e })
      | (db1, none, n) =>
        (db1, { status := 201,
                body := "Successfully created " ++ toString n ++ " students" })

/-- Soft-delete update applied to one user row by the destroy handlers. -/
def deactivateUserRow (uid : Nat) (u : User) : User :=
  if u.id = uid then { u with is_active := false } else u

/-- UserDetailView.destroy (Super Admin endpoint): set is_active to False on
the addressed user, save it, and answer 200. -/
def UserDetailView.destroy (db : DB) (uid : Nat) : DB × Response :=
  ({ db with users := db.users.map (deactivateUserRow uid) },
   { status := 200, body := "User deactivated successfully" })

/-- SchoolUserDetailView.destroy (School Admin endpoint): identical soft
delete of the addressed user. -/
def SchoolUserDetailView.destroy (db : DB) (uid : Nat) : DB × Response :=
  ({ db with users := db.users.map (deactivateUserRow uid) },
   { status := 200, body := "User deactivated successfully" })

/-- Soft-delete update applied to one school row: set is_active to False and
save (School.save, so the slug rule and the auto_now updated_at column
apply). -/
def deactivateSchoolRow (now sid : Nat) (s : School) : School :=
  if s.id = sid then School.save now { s with is_active := false } else s

/-- SchoolDetailView.destroy: soft delete of the addressed school, answering
200. -/
def SchoolDetailView.destroy (now : Nat) (db : DB) (sid : Nat) : DB × Response :=
  ({ db with schools := db.schools.map (deactivateSchoolRow now sid) },
   { status := 200, body := "School deactivated successfully" })

/-- Creation of a Topic row under the unique_together (curriculum_class,
title) constraint of content.models.Topic.Meta: the insert fails exactly when
some existing topic already has the same class and title. -/
def Topic.create (topics : List Topic) (t : Topic) : Except String (List Topic) :=
  if ∃ x ∈ topics, x.curriculum_class = t.curriculum_class ∧ x.title = t.title then
    .error "IntegrityError: duplicate (curriculum_class, title)"
  else
    .ok (topics ++ [t])

/-- Split a character list at every occurrence of the separator. -/
def splitOnChar (c : Char) : List Char → List (List Char)
  | [] => [[]]
  | x :: xs =>
    if x = c then
      [] :: splitOnChar c xs
    else
      match splitOnChar c xs with
      | [] => [[x]]
      | y :: ys => (x :: y) :: ys

/-- Modelled from the spec and Django's EmailField: a simplified syntactic
well-formedness check for an email address (one @ separating a non-empty
local part from a non-empty domain containing a dot).  The exact validator is
Django library code outside this repository; the theorems below do not depend
on its details. -/
def isValidEmailFormat (e : String) : Bool :=
  match splitOnChar '@' e.data with
  | [localPart, domain] =>
    !localPart.isEmpty && !domain.isEmpty && domain.contains '.'
  | _ => false

/-- users.views.password_reset_request: validate the email field; when valid,
look up the user by email and answer 200 with the same message whether or not
the lookup succeeds; when invalid, answer 400 with the serializer errors. -/
def password_reset_request (db : DB) (email_field : String) : Response :=
  if isValidEmailFormat email_field then
    match db.users.find? (fun u => u.email == email_field) with
    | some _ => { status := 200, body := "Password reset link sent to email" }
    | none => { status := 200, body := "Password reset link sent to email" }
  else
    { status := 400, body := "email: Enter a valid email address." }

/-- Empty database with the user id counter at 1. -/
def emptyDB : DB :=
  { next_user_id := 1, users := [], teacher_profiles := [],
    student_profiles := [], schools := [], topics := [] }

/-- Payload sent to the school-admin creation endpoint: role SUPER_ADMIN with
no school, which the registration validator accepts. -/
def c1Submitted : RegistrationAttrs :=
  { email := "admin@example.com", first_name := "Ann", last_name := "Bee",
    role := "SUPER_ADMIN", school := none,
    password := "Str0ngPass", password_confirm := "Str0ngPass" }

/-- Registration payload for a teacher. -/
def regTeacherAttrs : RegistrationAttrs :=
  { email := "t@example.com", first_name := "Tea", last_name := "Cher",
    role := "TEACHER", school := some 1,
    password := "Str0ngPass", password_confirm := "Str0ngPass" }

/-- User row produced by registering `regTeacherAttrs` on the empty
database. -/
def regTeacherUser : User :=
  { id := 1, email := "t@example.com", first_name := "Tea",
    last_name := "Cher", role := "TEACHER", school := some 1,
    is_active := true, is_staff := false, date_joined := 0,
    last_login := none, password := "Str0ngPass" }

/-- Database state after registering `regTeacherAttrs` on the empty
database. -/
def regTeacherDB : DB :=
  { next_user_id := 2, users := [regTeacherUser],
    teacher_profiles := [⟨1, "Biology", none, "", ""⟩],
    student_profiles := [], schools := [], topics := [] }

/-- Bulk entry with all required fields, no password and no student id. -/
def dupEntry : BulkEntry :=
  { email := some "s1@example.com", first_name := some "Stu",
    last_name := some "Dent", class_level := some "S1", password := none,
    student_id := none, phone_number := none, parent_email := none,
    parent_phone := none }

/-- Bulk entry missing its email key. -/
def entryNoEmail : BulkEntry :=
  { email := none, first_name := some "Stu", last_name := some "Dent",
    class_level := some "S1", password := none, student_id := none,
    phone_number := none, parent_email := none, parent_phone := none }

/-- User row created for `dupEntry` on the empty database. -/
def bulkUser1 : User :=
  { id := 1, email := "s1@example.com", first_name := "Stu",
    last_name := "Dent", role := "STUDENT", school := some 1,
    is_active := true, is_staff := false, date_joined := 0,
    last_login := none, password := "BioTutor2025!" }

/-- Student profile row created for `dupEntry` on the empty database. -/
def bulkProfile1 : StudentProfile :=
  { user_id := 1, class_level := "S1", student_id := "STD000001",
    phone_number := "", parent_email := "", parent_phone := "",
    weak_topics := [] }

/-- Database state after creating `dupEntry` on the empty database. -/
def bulkDB1 : DB :=
  { next_user_id := 2, users := [bulkUser1], teacher_profiles := [],
    student_profiles := [bulkProfile1], schools := [], topics := [] }

/-- Sample super-admin requester. -/
def sampleSuperAdmin : User :=
  { id := 10, email := "root@example.com", first_name := "Ro",
    last_name := "Ot", role := "SUPER_ADMIN", school := none,
    is_active := true, is_staff := true, date_joined := 0,
    last_login := none, password := "pw" }

/-- Sample school-admin requester of school 1. -/
def sampleSchoolAdmin : User :=
  { id := 11, email := "sa@example.com", first_name := "Sch",
    last_name := "Adm", role := "SCHOOL_ADMIN", school := some 1,
    is_active := true, is_staff := false, date_joined := 0,
    last_login := none, password := "pw" }

/-- Sample permission target with a school attribute referencing school 1. -/
def sampleObj : PermObject :=
  { has_school_attr := true, has_role_attr := true, school := some 1 }

/-- Sample school whose slug is already set. -/
def c3School : School :=
  { id := 1, name := "Alpha School", slug := "alpha-school",
    email := "alpha@example.com", phone_number := "0700",
    address := "Plot 1", district := "Kampala", region := "Central",
    registration_number := "R1", is_active := true,
    subscription_type := "FREE", created_at := 0, updated_at := 0 }

/-- Database holding `c3School` and one user. -/
def c3DB : DB :=
  { emptyDB with schools := [c3School], users := [sampleSchoolAdmin] }

/-- Sample topic table with one topic of class 1. -/
def sampleTopics : List Topic :=
  [⟨1, 1, "The Cell", "Introduction", 1⟩]

/-- Topic duplicating the class and title of the existing sample topic. -/
def sampleT1 : Topic := ⟨2, 1, "The Cell", "Duplicate", 2⟩

/-- Topic with the same title as the existing sample topic but another
class. -/
def sampleT2 : Topic := ⟨3, 2, "The Cell", "Other class", 1⟩

/-- Fields of a user row other than is_active. -/
def userFrame (u : User) :=
  (u.id, u.email, u.first_name, u.last_name, u.role, u.school, u.is_staff,
   u.date_joined, u.last_login, u.password)

/-- Fields of a school row other than is_active and updated_at. -/
def schoolFrame (s : School) :=
  (s.id, s.name, s.slug, s.email, s.phone_number, s.address, s.district,
   s.region, s.registration_number, s.subscription_type, s.created_at)

/-- Bulk entry that validate_students rejects against database `db`: a
required field is missing, or its non-empty email is already in the users
table when the request arrives. -/
def invalidBulkEntry (db : DB) (s : BulkEntry) : Prop :=
  s.email = none ∨ s.first_name = none ∨ s.last_name = none ∨
    s.class_level = none ∨
    ∃ e, s.email = some e ∧ e ≠ "" ∧ emailExists db e = true

/-- Mapping a row update below a projection it preserves leaves the projected
table unchanged. -/
theorem map_frame_eq {α β : Type} (f : α → α) (frame : α → β) (l : List α)
    (h : ∀ a ∈ l, frame (f a) = frame a) :
    (l.map f).map frame = l.map frame := by
  induction l with
  | nil => rfl
  | cons a t ih =>
    simp only [List.map_cons, List.cons.injEq]
    exact ⟨h a (List.mem_cons_self a t), ih fun b hb => h b (List.mem_cons_of_mem a hb)⟩

/-- A row fixed by the update stays in the mapped table. -/
theorem mem_map_of_fixed {α : Type} (f : α → α) (l : List α) (a : α)
    (ha : a ∈ l) (hfa : f a = a) : a ∈ l.map f :=
  List.mem_map.mpr ⟨a, ha, hfa⟩

/-- C4: UserRegistrationSerializer.validate succeeds exactly when the
passwords match, the role-SUPER_ADMIN-with-school case is absent, and the
other-role-without-school case is absent; in particular it fails whenever
role is SUPER_ADMIN with a school set or a different role has no school, and
succeeds when neither holds and the passwords match. -/
theorem registration_validate_iff (a : RegistrationAttrs) :
    isOk (UserRegistrationSerializer.validate a) = true ↔
      (a.password = a.password_confirm ∧
        ¬(a.role = "SUPER_ADMIN" ∧ a.school ≠ none) ∧
        ¬(a.role ≠ "SUPER_ADMIN" ∧ a.school = none)) := by
  unfold UserRegistrationSerializer.validate
  split_ifs with h1 h2 h3 <;> simp_all [isOk]

/-- C5: IsSameSchool.has_object_permission grants every super admin access to
any object, and grants a school admin access to an object carrying a school
or role attribute exactly when the object's school equals the requester's
school. -/
theorem is_same_school_permission (requester : User) (obj : PermObject) :
    (requester.role = "SUPER_ADMIN" →
      IsSameSchool.has_object_permission requester obj = true) ∧
    (requester.role = "SCHOOL_ADMIN" →
      (obj.has_school_attr = true ∨ obj.has_role_attr = true) →
      (IsSameSchool.has_object_permission requester obj = true ↔
        obj.school = requester.school)) := by
  constructor
  · intro h
    simp [IsSameSchool.has_object_permission, h]
  · intro h hattr
    have hne : requester.role ≠ "SUPER_ADMIN" := by
      rw [h]; decide
    rcases hattr with ha | ha
    · simp [IsSameSchool.has_object_permission, h, hne, ha]
    · by_cases hb : obj.has_school_attr = true
      · simp [IsSameSchool.has_object_permission, h, hne, hb]
      · simp [IsSameSchool.has_object_permission, h, hne, hb, ha]

/-- Witness for C5: a super admin passes on the sample object, and the sample
school admin passes exactly when the schools agree. -/
theorem is_same_school_permission_witness :
    IsSameSchool.has_object_permission sampleSuperAdmin sampleObj = true ∧
    (IsSameSchool.has_object_permission sampleSchoolAdmin sampleObj = true ↔
      sampleObj.school = sampleSchoolAdmin.school) :=
  ⟨(is_same_school_permission sampleSuperAdmin sampleObj).1 rfl,
   (is_same_school_permission sampleSchoolAdmin sampleObj).2 rfl (Or.inl rfl)⟩

/-- C6: under the unique_together constraint of Topic, inserting a topic
whose class and title duplicate an existing topic fails, while inserting a
topic with the same title under a different class (not otherwise taken)
succeeds. -/
theorem topic_unique_per_class (topics : List Topic) (t0 t1 t2 : Topic)
    (h0 : t0 ∈ topics)
    (h1c : t1.curriculum_class = t0.curriculum_class) (h1t : t1.title = t0.title)
    (h2c : t2.curriculum_class ≠ t0.curriculum_class) (h2t : t2.title = t0.title)
    (h2fresh : ∀ x ∈ topics,
      ¬(x.curriculum_class = t2.curriculum_class ∧ x.title = t2.title)) :
    (∀ ts, Topic.create topics t1 ≠ .ok ts) ∧
    Topic.create topics t2 = .ok (topics ++ [t2]) := by
  constructor
  · intro ts hok
    unfold Topic.create at hok
    rw [if_pos ⟨t0, h0, h1c.symm, h1t.symm⟩] at hok
    exact Except.noConfusion hok
  · unfold Topic.create
    rw [if_neg]
    rintro ⟨x, hx, hc, ht⟩
    exact h2fresh x hx ⟨hc, ht⟩

/-- Witness for C6 at the sample topic table. -/
theorem topic_unique_per_class_witness :
    Topic.create sampleTopics sampleT1 ≠ .ok (sampleTopics ++ [sampleT1]) ∧
    Topic.create sampleTopics sampleT2 = .ok (sampleTopics ++ [sampleT2]) :=
  ⟨(topic_unique_per_class sampleTopics ⟨1, 1, "The Cell", "Introduction", 1⟩
      sampleT1 sampleT2 (by decide) rfl rfl (by decide) rfl (by decide)).1
      (sampleTopics ++ [sampleT1]),
   (topic_unique_per_class sampleTopics ⟨1, 1, "The Cell", "Introduction", 1⟩
      sampleT1 sampleT2 (by decide) rfl rfl (by decide) rfl (by decide)).2⟩

/-- C7: School.save derives the slug from the name exactly when the stored
slug is empty, and keeps the stored slug otherwise. -/
theorem school_save_slug (now : Nat) (s : School) :
    (School.save now s).slug = if s.slug = "" then slugify s.name else s.slug := by
  unfold School.save
  split_ifs with h <;> rfl

/-- C8: for a well-formed email, password_reset_request answers 200 with the
same body on any two user tables, so the response does not reveal whether a
user with that email exists. -/
theorem password_reset_noninterference (e : String) (db1 db2 : DB)
    (h : isValidEmailFormat e = true) :
    password_reset_request db1 e = password_reset_request db2 e ∧
    password_reset_request db1 e =
      { status := 200, body := "Password reset link sent to email" } := by
  unfold password_reset_request
  rw [if_pos h, if_pos h]
  constructor
  · cases db1.users.find? (fun u => u.email == e) <;>
      cases db2.users.find? (fun u => u.email == e) <;> rfl
  · cases db1.users.find? (fun u => u.email == e) <;> rfl

/-- Witness for C8: the same valid address against the empty table and a
populated table. -/
theorem password_reset_noninterference_witness :
    password_reset_request emptyDB "sa@example.com" =
      password_reset_request c3DB "sa@example.com" ∧
    password_reset_request emptyDB "sa@example.com" =
      { status := 200, body := "Password reset link sent to email" } :=
  ⟨(password_reset_noninterference "sa@example.com" emptyDB c3DB (by decide)).1,
   (password_reset_noninterference "sa@example.com" emptyDB c3DB (by decide)).2⟩

/-- C1 (failing input): the school-admin creation endpoint accepts a payload
whose submitted role is SUPER_ADMIN with no school — validation passes — and
the role override applied afterwards then stores a SCHOOL_ADMIN user whose
school is null, breaking the role-school invariant. -/
theorem school_admin_create_null_school :
    (SchoolAdminCreateView.perform_create 0 emptyDB c1Submitted).map
        (fun r => (r.2.role, r.2.school)) =
      Except.ok ("SCHOOL_ADMIN", (none : Option Nat)) := by
  rfl

/-- The deactivation update preserves every user field other than
is_active. -/
theorem userFrame_deactivate (uid : Nat) (u : User) :
    userFrame (deactivateUserRow uid u) = userFrame u := by
  unfold deactivateUserRow
  split_ifs <;> rfl

/-- The deactivation update fixes rows with a different id. -/
theorem deactivate_id_ne (uid : Nat) (u : User) (h : u.id ≠ uid) :
    deactivateUserRow uid u = u := by
  unfold deactivateUserRow
  rw [if_neg h]

/-- The school deactivation update preserves every field other than is_active
and updated_at, provided the slug is non-empty. -/
theorem schoolFrame_deactivate (now sid : Nat) (s : School) (h : s.slug ≠ "") :
    schoolFrame (deactivateSchoolRow now sid s) = schoolFrame s := by
  by_cases h1 : s.id = sid
  · simp [deactivateSchoolRow, School.save, schoolFrame, h1, h]
  · simp [deactivateSchoolRow, h1]

/-- The school deactivation update fixes rows with a different id. -/
theorem deactivateSchool_id_ne (now sid : Nat) (s : School) (h : s.id ≠ sid) :
    deactivateSchoolRow now sid s = s := by
  unfold deactivateSchoolRow
  rw [if_neg h]

/-- C3 (amended): the three destroy handlers soft delete: the addressed row
gets is_active False, rows are neither removed nor reordered, dependent
tables are untouched, unaddressed rows are fully unchanged, and the response
is 200 with the confirmation message; every other field of the addressed row
is preserved — except that saving a School also refreshes its auto_now
updated_at column (and rederives an empty slug, hence the slug hypothesis). -/
theorem soft_delete_deactivates_only (db : DB) (uid sid now : Nat)
    (hslug : ∀ s ∈ db.schools, s.slug ≠ "") :
    (UserDetailView.destroy db uid).1.users.map userFrame = db.users.map userFrame ∧
    (∀ u ∈ (UserDetailView.destroy db uid).1.users, u.id = uid → u.is_active = false) ∧
    (∀ u ∈ db.users, u.id ≠ uid → u ∈ (UserDetailView.destroy db uid).1.users) ∧
    (UserDetailView.destroy db uid).1.teacher_profiles = db.teacher_profiles ∧
    (UserDetailView.destroy db uid).1.student_profiles = db.student_profiles ∧
    (UserDetailView.destroy db uid).1.schools = db.schools ∧
    (UserDetailView.destroy db uid).2 =
      { status := 200, body := "User deactivated successfully" } ∧
    SchoolUserDetailView.destroy db uid = UserDetailView.destroy db uid ∧
    (SchoolDetailView.destroy now db sid).1.schools.map schoolFrame =
      db.schools.map schoolFrame ∧
    (∀ s ∈ (SchoolDetailView.destroy now db sid).1.schools,
      s.id = sid → s.is_active = false) ∧
    (∀ s ∈ db.schools, s.id ≠ sid →
      s ∈ (SchoolDetailView.destroy now db sid).1.schools) ∧
    (SchoolDetailView.destroy now db sid).1.users = db.users ∧
    (SchoolDetailView.destroy now db sid).1.teacher_profiles = db.teacher_profiles ∧
    (SchoolDetailView.destroy now db sid).1.student_profiles = db.student_profiles ∧
    (SchoolDetailView.destroy now db sid).2 =
      { status := 200, body := "School deactivated successfully" } := by
  refine ⟨?_, ?_, ?_, rfl, rfl, rfl, rfl, rfl, ?_, ?_, ?_, rfl, rfl, rfl, rfl⟩
  · exact map_frame_eq _ _ _ fun u _ => userFrame_deactivate uid u
  · intro u hu huid
    simp only [UserDetailView.destroy] at hu
    obtain ⟨a, ha, rfl⟩ := List.mem_map.mp hu
    by_cases hid : a.id = uid
    · simp [deactivateUserRow, hid]
    · rw [deactivate_id_ne uid a hid] at huid
      exact absurd huid hid
  · intro u hu hne
    exact mem_map_of_fixed _ _ _ hu (deactivate_id_ne uid u hne)
  · exact map_frame_eq _ _ _ fun s hs => schoolFrame_deactivate now sid s (hslug s hs)
  · intro s hs hsid
    simp only [SchoolDetailView.destroy] at hs
    obtain ⟨a, ha, rfl⟩ := List.mem_map.mp hs
    by_cases hid : a.id = sid
    · simp [deactivateSchoolRow, School.save, hid, hslug a ha]
    · rw [deactivateSchool_id_ne now sid a hid] at hsid
      exact absurd hsid hid
  · intro s hs hne
    exact mem_map_of_fixed _ _ _ hs (deactivateSchool_id_ne now sid s hne)

/-- Witness for C3 (amended) at a concrete database: besides is_active the
user and school frames are preserved, and the user endpoint answers 200. -/
theorem soft_delete_deactivates_only_witness :
    (UserDetailView.destroy c3DB 11).1.users.map userFrame =
      c3DB.users.map userFrame ∧
    (UserDetailView.destroy c3DB 11).2 =
      { status := 200, body := "User deactivated successfully" } ∧
    (SchoolDetailView.destroy 7 c3DB 1).1.schools.map schoolFrame =
      c3DB.schools.map schoolFrame := by
  have h := soft_delete_deactivates_only c3DB 11 1 7 (by decide)
  exact ⟨h.1, h.2.2.2.2.2.2.1, h.2.2.2.2.2.2.2.2.1⟩

/-- C3 (counterexample): soft-deleting a school at save time 7 changes its
updated_at column (from 0 to 7), so a field other than is_active is modified
even though the handler answers 200 as claimed. -/
theorem school_destroy_modifies_updated_at :
    (SchoolDetailView.destroy 7 c3DB 1).1.schools.map School.updated_at ≠
      c3DB.schools.map School.updated_at ∧
    (SchoolDetailView.destroy 7 c3DB 1).1.schools.map School.updated_at = [7] ∧
    c3DB.schools.map School.updated_at = [0] ∧
    (SchoolDetailView.destroy 7 c3DB 1).2.status = 200 := by
  refine ⟨by decide, rfl, rfl, rfl⟩

/-- A rejected entry makes the required-field check report all fields
present only if none is missing. -/
theorem requiredFieldError_eq_none (idx : Nat) (s : BulkEntry)
    (h : requiredFieldError idx s = none) :
    s.email ≠ none ∧ s.first_name ≠ none ∧ s.last_name ≠ none ∧
      s.class_level ≠ none := by
  unfold requiredFieldError at h
  split_ifs at h with h1 h2 h3 h4 <;> simp_all

/-- An invalid bulk entry never passes validateStudent. -/
theorem validateStudent_ne_none_of_invalid (db : DB) (idx : Nat) (s : BulkEntry)
    (h : invalidBulkEntry db s) : validateStudent db idx s ≠ none := by
  intro hnone
  unfold validateStudent at hnone
  cases hre : requiredFieldError idx s with
  | some e =>
    rw [hre] at hnone
    exact Option.noConfusion hnone
  | none =>
    rw [hre] at hnone
    obtain ⟨he, hf, hl, hc⟩ := requiredFieldError_eq_none idx s hre
    rcases h with he2 | hf2 | hl2 | hc2 | ⟨e, hse, hne, hex⟩
    · exact he he2
    · exact hf hf2
    · exact hl hl2
    · exact hc hc2
    · have hd : emailDupError db idx s =
          some ("Student " ++ toString (idx + 1) ++ ": Email " ++ e ++
            " already exists") := by
        unfold emailDupError
        rw [hse]
        exact if_pos ⟨hne, hex⟩
      rw [hd] at hnone
      exact Option.noConfusion hnone

/-- A list containing an invalid entry never passes the validation loop,
wherever the loop starts counting. -/
theorem validateStudentsFrom_ne_none (db : DB) (entries : List BulkEntry) :
    ∀ idx, (∃ s ∈ entries, invalidBulkEntry db s) →
      validateStudentsFrom db idx entries ≠ none := by
  induction entries with
  | nil =>
    intro idx h
    obtain ⟨s, hs, _⟩ := h
    exact absurd hs (List.not_mem_nil s)
  | cons a t ih =>
    intro idx h
    unfold validateStudentsFrom
    cases hv : validateStudent db idx a with
    | some e => simp
    | none =>
      obtain ⟨s, hs, hbad⟩ := h
      rcases List.mem_cons.mp hs with rfl | hmem
      · exact absurd hv (validateStudent_ne_none_of_invalid db idx s hbad)
      · exact ih (idx + 1) ⟨s, hmem, hbad⟩

/-- C2 (amended): when some entry of the batch is missing a required field or
carries a non-empty email already present in the database, the whole bulk
request is rejected with status 400 and the database is returned unchanged —
no User or StudentProfile row is created. -/
theorem bulk_validation_failure_creates_nothing (school : Option Nat)
    (now : Nat) (db : DB) (entries : List BulkEntry)
    (h : ∃ s ∈ entries, invalidBulkEntry db s) :
    (BulkStudentCreateView.post school now db entries).1 = db ∧
    (BulkStudentCreateView.post school now db entries).2.status = 400 := by
  have hne : entries ≠ [] := by
    rintro rfl
    obtain ⟨s, hs, _⟩ := h
    exact absurd hs (List.not_mem_nil s)
  have hv : validate_students db entries ≠ none := by
    unfold validate_students
    exact validateStudentsFrom_ne_none db entries 0 h
  unfold BulkStudentCreateView.post
  rw [if_neg hne]
  cases hvv : validate_students db entries with
  | some err => exact ⟨rfl, rfl⟩
  | none => exact absurd hvv hv

/-- Witness for C2 (amended): a single entry without an email is rejected
with 400 and the empty database is unchanged. -/
theorem bulk_validation_failure_creates_nothing_witness :
    (BulkStudentCreateView.post (some 1) 0 emptyDB [entryNoEmail]).1 = emptyDB ∧
    (BulkStudentCreateView.post (some 1) 0 emptyDB [entryNoEmail]).2.status = 400 :=
  bulk_validation_failure_creates_nothing (some 1) 0 emptyDB [entryNoEmail]
    ⟨entryNoEmail, List.mem_cons_self _ _, Or.inl rfl⟩

/-- C2 (counterexample): a batch repeating one fresh email passes validation,
fails on the second entry against the unique-email constraint, and still
leaves the first student's user row created: the failed request does not
leave the database unchanged, and the failure is not a validation
rejection. -/
theorem bulk_duplicate_partial_creation :
    (BulkStudentCreateView.post (some 1) 0 emptyDB [dupEntry, dupEntry]).2.status = 500 ∧
    (BulkStudentCreateView.post (some 1) 0 emptyDB [dupEntry, dupEntry]).1.users.length = 1 ∧
    emptyDB.users.length = 0 := by
  exact ⟨rfl, rfl, rfl⟩

/-- C9: in the bulk creation loop, an entry without a password key yields a
user stored with the default password BioTutor2025!, and an entry without a
student_id key yields a profile whose student id is STD followed by the
user's id zero-padded to six digits. -/
theorem bulk_create_defaults (school : Option Nat) (now : Nat) (db : DB)
    (s : BulkEntry) (db1 : DB) (u : User) (p : StudentProfile)
    (h : BulkStudentCreateView.createOne school now db s = .ok (db1, u, p)) :
    (s.password = none → u.password = "BioTutor2025!") ∧
    (s.student_id = none → p.student_id = "STD" ++ pad6 u.id) := by
  simp only [BulkStudentCreateView.createOne] at h
  split at h
  · exact Except.noConfusion h
  · split at h
    · exact Except.noConfusion h
    · split at h
      · exact Except.noConfusion h
      · simp only [Except.ok.injEq, Prod.mk.injEq] at h
        obtain ⟨-, hu, hp⟩ := h
        constructor
        · intro hpw
          rw [← hu]
          simp [hpw]
        · intro hsid
          rw [← hp, ← hu]
          simp [hsid]

/-- Witness for C9: the sample entry without password and student_id keys
produces the default password and the generated student id. -/
theorem bulk_create_defaults_witness :
    bulkUser1.password = "BioTutor2025!" ∧
    bulkProfile1.student_id = "STD" ++ pad6 bulkUser1.id := by
  have h := bulk_create_defaults (some 1) 0 emptyDB dupEntry bulkDB1 bulkUser1
    bulkProfile1 (by rfl)
  exact ⟨h.1 rfl, h.2 rfl⟩

/-- Inserting a user row leaves both profile tables unchanged. -/
theorem insertUser_profiles (db : DB) (u : User) (db1 : DB)
    (h : insertUser db u = .ok db1) :
    db1.teacher_profiles = db.teacher_profiles ∧
      db1.student_profiles = db.student_profiles := by
  unfold insertUser at h
  split_ifs at h
  simp only [Except.ok.injEq] at h
  rw [← h]
  exact ⟨rfl, rfl⟩

/-- Inserting a student profile appends exactly that row and leaves the
teacher table unchanged. -/
theorem insertStudentProfile_profiles (db : DB) (p : StudentProfile) (db1 : DB)
    (h : insertStudentProfile db p = .ok db1) :
    db1.student_profiles = db.student_profiles ++ [p] ∧
      db1.teacher_profiles = db.teacher_profiles := by
  unfold insertStudentProfile at h
  split_ifs at h
  simp only [Except.ok.injEq] at h
  rw [← h]
  exact ⟨rfl, rfl⟩

/-- C10: UserRegistrationSerializer.create creates exactly the role-dependent
profile row: a TeacherProfile linked to the new user for TEACHER, a
StudentProfile with class level S1 and student id STD plus the six-digit
zero-padded user id for STUDENT, and no profile row for SUPER_ADMIN or
SCHOOL_ADMIN. -/
theorem registration_create_profiles (now : Nat) (db : DB)
    (d : RegistrationAttrs) (db1 : DB) (u : User)
    (h : UserRegistrationSerializer.create now db d = .ok (db1, u)) :
    (d.role = "TEACHER" →
      db1.teacher_profiles = db.teacher_profiles ++
        [⟨u.id, "Biology", none, "", ""⟩] ∧
      db1.student_profiles = db.student_profiles) ∧
    (d.role = "STUDENT" →
      db1.student_profiles = db.student_profiles ++
        [⟨u.id, "S1", "STD" ++ pad6 u.id, "", "", "", []⟩] ∧
      db1.teacher_profiles = db.teacher_profiles) ∧
    ((d.role = "SUPER_ADMIN" ∨ d.role = "SCHOOL_ADMIN") →
      db1.teacher_profiles = db.teacher_profiles ∧
      db1.student_profiles = db.student_profiles) := by
  simp only [UserRegistrationSerializer.create] at h
  cases hins : insertUser db (newUserRecord now db d) with
  | error e =>
    rw [hins] at h
    exact Except.noConfusion h
  | ok dbA =>
    rw [hins] at h
    dsimp only at h
    obtain ⟨hA1, hA2⟩ := insertUser_profiles db (newUserRecord now db d) dbA hins
    by_cases ht : (newUserRecord now db d).role = "TEACHER"
    · rw [if_pos ht] at h
      simp only [Except.ok.injEq, Prod.mk.injEq] at h
      obtain ⟨hdb, hu⟩ := h
      have htd : d.role = "TEACHER" := ht
      refine ⟨fun _ => ?_, fun hst => ?_, fun hadm => ?_⟩
      · rw [← hdb, ← hu]
        refine ⟨?_, hA2⟩
        show dbA.teacher_profiles ++
            [⟨(newUserRecord now db d).id, "Biology", none, "", ""⟩] =
          db.teacher_profiles ++
            [⟨(newUserRecord now db d).id, "Biology", none, "", ""⟩]
        rw [hA1]
      · exact absurd (htd.symm.trans hst) (by decide)
      · rcases hadm with ha | ha <;> exact absurd (htd.symm.trans ha) (by decide)
    · rw [if_neg ht] at h
      by_cases hs : (newUserRecord now db d).role = "STUDENT"
      · rw [if_pos hs] at h
        have hsd : d.role = "STUDENT" := hs
        cases hip : insertStudentProfile dbA
            { user_id := (newUserRecord now db d).id, class_level := "S1",
              student_id := "STD" ++ pad6 (newUserRecord now db d).id,
              phone_number := "", parent_email := "", parent_phone := "",
              weak_topics := [] } with
        | error e =>
          rw [hip] at h
          exact Except.noConfusion h
        | ok dbB =>
          rw [hip] at h
          dsimp only at h
          simp only [Except.ok.injEq, Prod.mk.injEq] at h
          obtain ⟨hdb, hu⟩ := h
          obtain ⟨hB1, hB2⟩ := insertStudentProfile_profiles dbA _ dbB hip
          refine ⟨fun hte => ?_, fun _ => ?_, fun hadm => ?_⟩
          · exact absurd (hsd.symm.trans hte) (by decide)
          · rw [← hdb, ← hu]
            refine ⟨?_, ?_⟩
            · show dbB.student_profiles = db.student_profiles ++
                [⟨(newUserRecord now db d).id, "S1",
                  "STD" ++ pad6 (newUserRecord now db d).id, "", "", "", []⟩]
              rw [hB1, hA2]
            · show dbB.teacher_profiles = db.teacher_profiles
              rw [hB2, hA1]
          · rcases hadm with ha | ha <;> exact absurd (hsd.symm.trans ha) (by decide)
      · rw [if_neg hs] at h
        simp only [Except.ok.injEq, Prod.mk.injEq] at h
        obtain ⟨hdb, hu⟩ := h
        refine ⟨fun hte => absurd hte ht, fun hst => absurd hst hs, fun _ => ?_⟩
        rw [← hdb]
        exact ⟨hA1, hA2⟩

/-- Witness for C10: registering the sample teacher on the empty database
creates exactly one linked TeacherProfile row and no StudentProfile row. -/
theorem registration_create_profiles_witness :
    regTeacherDB.teacher_profiles = emptyDB.teacher_profiles ++
      [⟨regTeacherUser.id, "Biology", none, "", ""⟩] ∧
    regTeacherDB.student_profiles = emptyDB.student_profiles :=
  (registration_create_profiles 0 emptyDB regTeacherAttrs regTeacherDB
    regTeacherUser (by rfl)).1 rfl

end BioTutor
